import Mathlib

/-!
Shallow embedding of the brewery-map repository (a Next.js app).

Server route (src/unnamed/part_000): haversine distance `milesBetween`,
geocoding helper `geocodeCityState`, and the `GET` request handler that
resolves an origin, fetches breweries from the external directory, and
applies a radius filter.

Client component (src/app/components/MapView.tsx): the same `milesBetween`
formula and the `breweriesWithCoords` coordinate-normalization step.

Numbers are modelled as exact reals; JavaScript runtime values that may be
a number, a string or null are modelled by `JsVal`.
-/

open Classical

namespace BreweryMap

/-- Degrees to radians, from `toRad` in part_000 (and the identical local
arrow function in MapView.tsx): `(n * Math.PI) / 180`. -/
noncomputable def toRad (n : ℝ) : ℝ := n * Real.pi / 180

/-- The haversine term bound to the local `a` inside `milesBetween`:
`sin²(dLat/2) + cos(toRad lat1) · cos(toRad lat2) · sin²(dLon/2)` where
`dLat = toRad (lat2 - lat1)` and `dLon = toRad (lon2 - lon1)`. -/
noncomputable def haversineA (lat1 lon1 lat2 lon2 : ℝ) : ℝ :=
  Real.sin (toRad (lat2 - lat1) / 2) ^ 2 +
    Real.cos (toRad lat1) * Real.cos (toRad lat2) *
      Real.sin (toRad (lon2 - lon1) / 2) ^ 2

/-- Haversine distance in miles, from `milesBetween` in part_000 (the copy
in MapView.tsx is textually identical): `2 * R * Math.asin(Math.sqrt(a))`
with `R = 3958.7613`. Note the source applies no clamp to `a`. -/
noncomputable def milesBetween (lat1 lon1 lat2 lon2 : ℝ) : ℝ :=
  2 * 3958.7613 * Real.arcsin (Real.sqrt (haversineA lat1 lon1 lat2 lon2))

/-- A JavaScript runtime value in a coordinate field: a number, a string,
or null/undefined. -/
inductive JsVal where
  | num (x : ℝ)
  | str (s : String)
  | null

/-- A brewery record as returned by the external directory, from the
`Brewery` type in part_000 / MapView.tsx. The TypeScript annotations are
erased at runtime; coordinate fields can arrive as numbers, strings or
null (MapView.tsx declares `string | number | null`), hence `JsVal`. -/
structure Brewery where
  id : String
  name : String
  brewery_type : String
  address_1 : Option String
  city : String
  state_province : String
  latitude : JsVal
  longitude : JsVal
  website_url : Option String

/-- The predicate of the radius filter inside `GET` (part_000 lines
105-109): records whose latitude or longitude is not number-typed are
rejected (`typeof b.latitude !== "number"`), otherwise the haversine
distance to the origin is compared with `d <= radiusMiles`. -/
noncomputable def radiusPred (oLat oLon radiusMiles : ℝ) (b : Brewery) : Bool :=
  match b.latitude, b.longitude with
  | .num la, .num lo =>
      if milesBetween oLat oLon la lo ≤ radiusMiles then true else false
  | _, _ => false

/-- The radius filter `data.filter((b) => ...)` in `GET`. -/
noncomputable def radiusFilter (oLat oLon radiusMiles : ℝ)
    (data : List Brewery) : List Brewery :=
  data.filter (radiusPred oLat oLon radiusMiles)

/-- The request `GET` sends to the brewery directory: either sorted by
distance from an origin (`by_dist`) or filtered by city and state name
(`by_city`/`by_state`), with a `per_page` cap. -/
inductive DirRequest where
  | byDist (lat lon : ℝ) (perPage : ℕ)
  | byCity (city state : String) (perPage : ℕ)

/-- The directory collaborator response `GET` receives: HTTP ok flag,
status code, and the parsed brewery list. -/
structure DirResponse where
  ok : Bool
  status : ℕ
  data : List Brewery

/-- The geocoding collaborator behaviour seen by `geocodeCityState`:
the fetch may reject (collaborator unreachable), return a non-ok HTTP
status, or return a parsed list of matches. -/
inductive GeoResponse where
  | thrown
  | notOk
  | ok (results : List (ℝ × ℝ))

/-- Result of `geocodeCityState` (part_000 lines 32-50): a rejected fetch
propagates as an exception (`Except.error`, there is no try/catch in the
file); a non-ok response or an empty result list yields null; otherwise
the first match is returned. -/
def geocodeCityState : GeoResponse → Except Unit (Option (ℝ × ℝ))
  | .thrown => .error ()
  | .notOk => .ok none
  | .ok [] => .ok none
  | .ok (m :: _) => .ok (some m)

/-- The value produced by the `GET` handler: an uncaught exception, an
error response `NextResponse.json({error}, {status})` carrying only a
status code, or a success response with an optional
`origin {lat, lon, radiusMiles}` and a breweries array. -/
inductive ApiResult where
  | thrown
  | errorResp (status : ℕ)
  | success (origin : Option (ℝ × ℝ × ℝ)) (breweries : List Brewery)

/-- Observable outcome of one `GET` call: the directory request it issued
(none when the handler threw before reaching the directory) and the
response it produced. -/
structure GETOutcome where
  dirReq : Option DirRequest
  result : ApiResult

/-- The part of `GET` after origin resolution (part_000 lines 78-117):
build the directory request (`by_dist` when both origin coordinates are
non-null, else `by_city`/`by_state`), surface a non-ok directory status
as an error response with the same status, apply the radius filter only
when both origin coordinates are non-null and `radiusMiles > 0`, and
populate the origin field only on that filtered path. -/
noncomputable def afterOrigin (originLat originLon : Option ℝ)
    (radiusMiles : ℝ) (perPage : ℕ) (city state : String)
    (dir : DirResponse) : GETOutcome :=
  let dirReq : DirRequest :=
    match originLat, originLon with
    | some la, some lo => .byDist la lo perPage
    | _, _ => .byCity city state perPage
  if dir.ok = false then ⟨some dirReq, .errorResp dir.status⟩
  else
    match originLat, originLon with
    | some la, some lo =>
        if 0 < radiusMiles then
          ⟨some dirReq, .success (some (la, lo, radiusMiles))
            (radiusFilter la lo radiusMiles dir.data)⟩
        else ⟨some dirReq, .success none dir.data⟩
    | _, _ => ⟨some dirReq, .success none dir.data⟩

/-- The `GET` handler (part_000 lines 52-117) as a function of the request
parameters and the two collaborator responses. `latP`, `lonP`, `radiusP`
hold the numeric values of truthy query parameters (`none` = absent or
empty, matching `latParam ? Number(latParam) : null` and the `|| "30"`
default); `city`/`state` carry their defaults already applied. Geocoding
runs only when an origin coordinate is missing and `radiusMiles > 0`; a
successful geocode overwrites both origin coordinates; an exception from
the geocode fetch escapes the handler. -/
noncomputable def GET (latP lonP radiusP : Option ℝ) (perPageP : Option ℕ)
    (city state : String) (geo : GeoResponse) (dir : DirResponse) :
    GETOutcome :=
  let radiusMiles := radiusP.getD 30
  let perPage := min (perPageP.getD 200) 200
  if (latP = none ∨ lonP = none) ∧ 0 < radiusMiles then
    match geocodeCityState geo with
    | .error _ => ⟨none, .thrown⟩
    | .ok (some g) =>
        afterOrigin (some g.1) (some g.2) radiusMiles perPage city state dir
    | .ok none => afterOrigin latP lonP radiusMiles perPage city state dir
  else afterOrigin latP lonP radiusMiles perPage city state dir

/-- JavaScript truthiness of a coordinate field value: the number 0, the
empty string and null are falsy; other numbers and strings are truthy. -/
noncomputable def jsTruthy : JsVal → Bool
  | .num x => if x = 0 then false else true
  | .str s => if s = "" then false else true
  | .null => false

/-- The filter inside `breweriesWithCoords` (MapView.tsx lines 238-239):
`breweries.filter((b) => b.latitude && b.longitude)`. -/
noncomputable def hasCoords (b : Brewery) : Bool :=
  jsTruthy b.latitude && jsTruthy b.longitude

/-- The JavaScript `Number(...)` coercion applied to a coordinate field.
String parsing is the runtime conversion, passed in as `parse`;
`Number(null)` is 0. -/
def jsToNumber (parse : String → ℝ) : JsVal → ℝ
  | .num x => x
  | .str s => parse s
  | .null => 0

/-- A brewery record after client-side normalization: the same fields
with numeric latitude and longitude. -/
structure NormBrewery where
  id : String
  name : String
  brewery_type : String
  address_1 : Option String
  city : String
  state_province : String
  latitude : ℝ
  longitude : ℝ
  website_url : Option String

/-- The map step of `breweriesWithCoords` (MapView.tsx lines 240-244):
`{...b, latitude: Number(b.latitude), longitude: Number(b.longitude)}`. -/
def withNumberCoords (parse : String → ℝ) (b : Brewery) : NormBrewery :=
  { id := b.id, name := b.name, brewery_type := b.brewery_type,
    address_1 := b.address_1, city := b.city,
    state_province := b.state_province,
    latitude := jsToNumber parse b.latitude,
    longitude := jsToNumber parse b.longitude,
    website_url := b.website_url }

/-- `breweriesWithCoords` (MapView.tsx lines 237-245): keep records whose
latitude and longitude are both truthy, then coerce both to numbers. This
list feeds the rendered result list and the map markers. -/
noncomputable def breweriesWithCoords (parse : String → ℝ)
    (breweries : List Brewery) : List NormBrewery :=
  (breweries.filter hasCoords).map (withNumberCoords parse)

-- Basic facts about the distance function.

theorem sin_sq_half_eq (x : ℝ) :
    Real.sin (x / 2) ^ 2 = (1 - Real.cos x) / 2 := by
  have h := Real.cos_two_mul (x / 2)
  have h2 : 2 * (x / 2) = x := by ring
  rw [h2] at h
  have h3 := Real.sin_sq_add_cos_sq (x / 2)
  linarith

theorem milesBetween_self (la lo : ℝ) : milesBetween la lo la lo = 0 := by
  have h : haversineA la lo la lo = 0 := by
    simp [haversineA, toRad]
  simp [milesBetween, h]

theorem toRad_mem_Icc {lat : ℝ} (h1 : -90 ≤ lat) (h2 : lat ≤ 90) :
    toRad lat ∈ Set.Icc (-(Real.pi / 2)) (Real.pi / 2) := by
  have hpi := Real.pi_pos
  constructor
  · unfold toRad; nlinarith
  · unfold toRad; nlinarith

theorem haversineA_nonneg (lat1 lon1 lat2 lon2 : ℝ)
    (h1 : -90 ≤ lat1) (h2 : lat1 ≤ 90) (h3 : -90 ≤ lat2) (h4 : lat2 ≤ 90) :
    0 ≤ haversineA lat1 lon1 lat2 lon2 := by
  have hc1 := Real.cos_nonneg_of_mem_Icc (toRad_mem_Icc h1 h2)
  have hc2 := Real.cos_nonneg_of_mem_Icc (toRad_mem_Icc h3 h4)
  have hs1 := sq_nonneg (Real.sin (toRad (lat2 - lat1) / 2))
  have hs2 := sq_nonneg (Real.sin (toRad (lon2 - lon1) / 2))
  unfold haversineA
  nlinarith [mul_nonneg (mul_nonneg hc1 hc2) hs2]

theorem haversineA_le_one (lat1 lon1 lat2 lon2 : ℝ)
    (h1 : -90 ≤ lat1) (h2 : lat1 ≤ 90) (h3 : -90 ≤ lat2) (h4 : lat2 ≤ 90) :
    haversineA lat1 lon1 lat2 lon2 ≤ 1 := by
  have hc1 := Real.cos_nonneg_of_mem_Icc (toRad_mem_Icc h1 h2)
  have hc2 := Real.cos_nonneg_of_mem_Icc (toRad_mem_Icc h3 h4)
  have hdiff : toRad (lat2 - lat1) = toRad lat2 - toRad lat1 := by
    unfold toRad; ring
  have hhalf := sin_sq_half_eq (toRad (lat2 - lat1))
  have hcos : Real.cos (toRad (lat2 - lat1)) =
      Real.cos (toRad lat2) * Real.cos (toRad lat1) +
        Real.sin (toRad lat2) * Real.sin (toRad lat1) := by
    rw [hdiff, Real.cos_sub]
  rw [hcos] at hhalf
  have hs2 : Real.sin (toRad (lon2 - lon1) / 2) ^ 2 ≤ 1 :=
    Real.sin_sq_le_one _
  have hs2n := sq_nonneg (Real.sin (toRad (lon2 - lon1) / 2))
  have hadd : Real.cos (toRad lat1 + toRad lat2) ≤ 1 := Real.cos_le_one _
  rw [Real.cos_add] at hadd
  unfold haversineA
  rw [hhalf]
  nlinarith [mul_nonneg hc1 hc2,
    mul_nonneg (mul_nonneg hc1 hc2)
      (sub_nonneg.mpr hs2 : (0:ℝ) ≤ 1 - Real.sin (toRad (lon2 - lon1) / 2) ^ 2)]

theorem haversineA_antipodal : haversineA 0 0 0 180 = 1 := by
  have h180 : toRad (180 - 0) = Real.pi := by
    unfold toRad; ring
  have h0 : toRad (0 - 0) = 0 := by
    unfold toRad; ring
  unfold haversineA
  rw [h180, h0]
  simp [toRad]

theorem milesBetween_antipodal :
    milesBetween 0 0 0 180 = 3958.7613 * Real.pi := by
  unfold milesBetween
  rw [haversineA_antipodal, Real.sqrt_one, Real.arcsin_one]
  ring

theorem milesBetween_symm_aux (lat1 lon1 lat2 lon2 : ℝ) :
    haversineA lat1 lon1 lat2 lon2 = haversineA lat2 lon2 lat1 lon1 := by
  have hs : ∀ x y : ℝ,
      Real.sin (toRad (x - y) / 2) ^ 2 = Real.sin (toRad (y - x) / 2) ^ 2 := by
    intro x y
    have hneg : toRad (x - y) / 2 = -(toRad (y - x) / 2) := by
      unfold toRad; ring
    rw [hneg, Real.sin_neg, neg_sq]
  unfold haversineA
  rw [hs lat2 lat1, hs lon2 lon1]
  ring

-- Facts about the radius-filter predicate.

theorem radiusPred_num (oLat oLon r la lo : ℝ) (b : Brewery)
    (hla : b.latitude = JsVal.num la) (hlo : b.longitude = JsVal.num lo) :
    radiusPred oLat oLon r b =
      if milesBetween oLat oLon la lo ≤ r then true else false := by
  unfold radiusPred
  rw [hla, hlo]

theorem radiusPred_true_elim (oLat oLon r : ℝ) (b : Brewery)
    (hp : radiusPred oLat oLon r b = true) :
    ∃ la lo, b.latitude = JsVal.num la ∧ b.longitude = JsVal.num lo ∧
      milesBetween oLat oLon la lo ≤ r := by
  unfold radiusPred at hp
  cases hla : b.latitude with
  | num la =>
      cases hlo : b.longitude with
      | num lo =>
          rw [hla, hlo] at hp
          have hp2 : (if milesBetween oLat oLon la lo ≤ r then true
              else false) = true := hp
          refine ⟨la, lo, rfl, rfl, ?_⟩
          by_contra hc
          rw [if_neg hc] at hp2
          exact Bool.noConfusion hp2
      | str s =>
          rw [hla, hlo] at hp
          exact Bool.noConfusion (show false = true from hp)
      | null =>
          rw [hla, hlo] at hp
          exact Bool.noConfusion (show false = true from hp)
  | str s =>
      rw [hla] at hp
      exact Bool.noConfusion (show false = true from hp)
  | null =>
      rw [hla] at hp
      exact Bool.noConfusion (show false = true from hp)

theorem radiusPred_false_of_str (oLat oLon r : ℝ) (b : Brewery)
    (h : (∃ s, b.latitude = JsVal.str s) ∨ (∃ s, b.longitude = JsVal.str s)) :
    radiusPred oLat oLon r b = false := by
  by_contra hc
  have hp : radiusPred oLat oLon r b = true := by
    cases hb : radiusPred oLat oLon r b with
    | true => rfl
    | false => exact absurd hb hc
  obtain ⟨la, lo, hla, hlo, -⟩ := radiusPred_true_elim oLat oLon r b hp
  rcases h with ⟨s, hs⟩ | ⟨s, hs⟩
  · rw [hla] at hs; exact JsVal.noConfusion hs
  · rw [hlo] at hs; exact JsVal.noConfusion hs

-- Facts about the origin-dependent part of the handler.

theorem afterOrigin_error (originLat originLon : Option ℝ) (radiusMiles : ℝ)
    (perPage : ℕ) (city state : String) (dir : DirResponse)
    (hdir : dir.ok = false) :
    (afterOrigin originLat originLon radiusMiles perPage city state
      dir).result = .errorResp dir.status := by
  simp [afterOrigin, hdir]

theorem afterOrigin_success_origin (originLat originLon : Option ℝ)
    (radiusMiles : ℝ) (perPage : ℕ) (city state : String) (dir : DirResponse)
    (ola olo r : ℝ) (bs : List Brewery)
    (h : (afterOrigin originLat originLon radiusMiles perPage city state
      dir).result = .success (some (ola, olo, r)) bs) :
    bs = radiusFilter ola olo r dir.data := by
  by_cases hok : dir.ok = false
  · rw [afterOrigin_error _ _ _ _ _ _ _ hok] at h
    exact ApiResult.noConfusion h
  · rcases originLat with _ | la
    · have hred : (afterOrigin none originLon radiusMiles perPage city state
          dir).result = .success none dir.data := by
        simp [afterOrigin, hok]
      rw [hred] at h
      simp at h
    · rcases originLon with _ | lo
      · have hred : (afterOrigin (some la) none radiusMiles perPage city
            state dir).result = .success none dir.data := by
          simp [afterOrigin, hok]
        rw [hred] at h
        simp at h
      · have hred : afterOrigin (some la) (some lo) radiusMiles perPage city
            state dir =
            if 0 < radiusMiles then
              ⟨some (.byDist la lo perPage),
                .success (some (la, lo, radiusMiles))
                  (radiusFilter la lo radiusMiles dir.data)⟩
            else ⟨some (.byDist la lo perPage), .success none dir.data⟩ := by
          simp [afterOrigin, hok]
        rw [hred] at h
        by_cases hr : 0 < radiusMiles
        · rw [if_pos hr] at h
          simp at h
          obtain ⟨⟨h1, h2, h3⟩, h4⟩ := h
          subst h1; subst h2; subst h3
          exact h4.symm
        · rw [if_neg hr] at h
          simp at h

theorem GET_result_cases (latP lonP radiusP : Option ℝ) (perPageP : Option ℕ)
    (city state : String) (geo : GeoResponse) (dir : DirResponse)
    (ola olo r : ℝ) (bs : List Brewery)
    (h : (GET latP lonP radiusP perPageP city state geo dir).result =
      .success (some (ola, olo, r)) bs) :
    bs = radiusFilter ola olo r dir.data := by
  unfold GET at h
  by_cases hc : (latP = none ∨ lonP = none) ∧ 0 < radiusP.getD 30
  · rw [if_pos hc] at h
    cases hg : geocodeCityState geo with
    | error e =>
        rw [hg] at h
        exact absurd h (by simp)
    | ok og =>
        rw [hg] at h
        cases og with
        | none => exact afterOrigin_success_origin _ _ _ _ _ _ _ _ _ _ _ h
        | some g => exact afterOrigin_success_origin _ _ _ _ _ _ _ _ _ _ _ h
  · rw [if_neg hc] at h
    exact afterOrigin_success_origin _ _ _ _ _ _ _ _ _ _ _ h

-- Sample records used by witnesses and counterexamples.

/-- A brewery located exactly at latitude 0, longitude 0, with
number-typed coordinates. -/
def breweryAtZero : Brewery :=
  ⟨"b0", "Zero Brewing", "micro", none, "Null Island", "NA",
    .num 0, .num 0, none⟩

/-- A brewery whose coordinates arrive as numeric strings, as the
directory delivers them. -/
def breweryStrCoords : Brewery :=
  ⟨"b1", "String Brewing", "micro", none, "Denver", "Colorado",
    .str "39.74", .str "-104.99", none⟩

/-- A brewery whose latitude is the number 0 and whose longitude is a
nonzero number. -/
def breweryZeroLat : Brewery :=
  ⟨"b2", "Zero Lat Brewing", "micro", none, "Gulf of Guinea", "NA",
    .num 0, .num 5, none⟩

-- Claim theorems.

/-- C1: for every radius-filtered query (origin resolved and
radiusMiles > 0, i.e. the response populates the origin field), every
record in the returned breweries sequence has number-typed latitude and
longitude whose haversine distance from the origin is at most radiusMiles
(inclusive); in particular no record lacking numeric coordinates appears
in the filtered result. -/
theorem radius_filtered_result_within_radius (latP lonP radiusP : Option ℝ)
    (perPageP : Option ℕ) (city state : String) (geo : GeoResponse)
    (dir : DirResponse) (ola olo r : ℝ) (bs : List Brewery)
    (h : (GET latP lonP radiusP perPageP city state geo dir).result =
      .success (some (ola, olo, r)) bs) :
    ∀ b ∈ bs, ∃ la lo, b.latitude = JsVal.num la ∧
      b.longitude = JsVal.num lo ∧ milesBetween ola olo la lo ≤ r := by
  have hbs := GET_result_cases latP lonP radiusP perPageP city state geo dir
    ola olo r bs h
  subst hbs
  intro b hb
  exact radiusPred_true_elim ola olo r b (List.of_mem_filter hb)

/-- C1 witness: a query with explicit origin (0,0) and radius 1 over a
directory response containing one brewery at (0,0) returns it, and the
returned record satisfies the radius invariant. -/
theorem radius_filtered_result_within_radius_witness :
    ∃ la lo, breweryAtZero.latitude = JsVal.num la ∧
      breweryAtZero.longitude = JsVal.num lo ∧ milesBetween 0 0 la lo ≤ 1 :=
  radius_filtered_result_within_radius (some 0) (some 0) (some 1) none
    "Denver" "Colorado" .notOk ⟨true, 200, [breweryAtZero]⟩ 0 0 1
    [breweryAtZero]
    (by
      have hfil : radiusFilter 0 0 1 [breweryAtZero] = [breweryAtZero] := by
        simp [radiusFilter, List.filter, radiusPred, breweryAtZero,
          milesBetween_self]
      simp [GET, afterOrigin, hfil])
    breweryAtZero (by simp)

/-- C2 counterexample: for the antipodal pair (0,0) and (0,180) the
distance function returns exactly 3958.7613 · π, which is below 12437
miles, more than 14 miles short of the 12451.0 value the claim states. -/
theorem milesBetween_antipodal_not_12451 :
    milesBetween 0 0 0 180 = 3958.7613 * Real.pi ∧
      milesBetween 0 0 0 180 < 12437 ∧
      milesBetween 0 0 0 180 + 14 < 12451.0 := by
  have h := milesBetween_antipodal
  have hpi := Real.pi_lt_d6
  refine ⟨h, ?_, ?_⟩ <;> rw [h] <;> nlinarith

/-- C2 amended: milesBetween applies no clamp, and over exact real
arithmetic none is needed for in-range latitudes: the haversine term lies
in [0,1], so sqrt and asin stay inside their domains; for the antipodal
inputs (0,0) and (0,180) the function returns the finite value
3958.7613 · π ≈ 12436.8 miles (half the circumference at the radius the
code uses), not ≈ 12451.0. -/
theorem haversine_in_domain_and_antipodal_value (lat1 lon1 lat2 lon2 : ℝ)
    (h1 : -90 ≤ lat1) (h2 : lat1 ≤ 90) (h3 : -90 ≤ lat2) (h4 : lat2 ≤ 90) :
    (0 ≤ haversineA lat1 lon1 lat2 lon2 ∧
      haversineA lat1 lon1 lat2 lon2 ≤ 1) ∧
      milesBetween 0 0 0 180 = 3958.7613 * Real.pi :=
  ⟨⟨haversineA_nonneg lat1 lon1 lat2 lon2 h1 h2 h3 h4,
    haversineA_le_one lat1 lon1 lat2 lon2 h1 h2 h3 h4⟩,
   milesBetween_antipodal⟩

/-- C2 amended witness: the haversine term at the antipodal pair (0,0),
(0,180) lies in [0,1]. -/
theorem haversine_in_domain_witness :
    0 ≤ haversineA 0 0 0 180 ∧ haversineA 0 0 0 180 ≤ 1 :=
  (haversine_in_domain_and_antipodal_value 0 0 0 180 (by norm_num)
    (by norm_num) (by norm_num) (by norm_num)).1

/-- C3 counterexample: a record whose coordinates arrive as the numeric
strings "39.74" and "-104.99" is excluded by the radius filter even for
an origin at exactly that location (distance 0, within any positive
radius): the filter treats string-typed coordinates as missing instead of
normalizing them. -/
theorem string_coords_dropped_by_filter :
    radiusFilter 39.74 (-104.99) 30 [breweryStrCoords] = [] ∧
      milesBetween 39.74 (-104.99) 39.74 (-104.99) = 0 := by
  constructor
  · simp [radiusFilter, List.filter, radiusPred, breweryStrCoords]
  · exact milesBetween_self _ _

/-- C3 amended: the radius-filtering step does not normalize string-typed
coordinates; any record whose latitude or longitude is a string (numeric
or not) is treated as lacking coordinates and never appears in the
filtered result, regardless of radius. -/
theorem string_coords_never_in_filtered_result (oLat oLon radiusMiles : ℝ)
    (data : List Brewery) (b : Brewery)
    (h : (∃ s, b.latitude = JsVal.str s) ∨
      (∃ s, b.longitude = JsVal.str s)) :
    b ∉ radiusFilter oLat oLon radiusMiles data := by
  intro hmem
  have hp := List.of_mem_filter hmem
  rw [radiusPred_false_of_str oLat oLon radiusMiles b h] at hp
  exact Bool.noConfusion hp

/-- C3 amended witness: the concrete string-coordinate record is not in
the filtered result over a directory response containing only it. -/
theorem string_coords_never_in_filtered_result_witness :
    breweryStrCoords ∉ radiusFilter 39.74 (-104.99) 30 [breweryStrCoords] :=
  string_coords_never_in_filtered_result 39.74 (-104.99) 30
    [breweryStrCoords] breweryStrCoords (Or.inl ⟨"39.74", rfl⟩)

/-- C6: radius membership is decided by the comparison
`milesBetween origin candidate ≤ radiusMiles`, inclusive at the boundary:
for number-typed coordinates the filter predicate is true exactly when
the distance is at most the radius, and in particular when the distance
equals the radius exactly. -/
theorem radius_membership_boundary_inclusive (oLat oLon radiusMiles la lo : ℝ)
    (b : Brewery) (hla : b.latitude = JsVal.num la)
    (hlo : b.longitude = JsVal.num lo) :
    (radiusPred oLat oLon radiusMiles b = true ↔
      milesBetween oLat oLon la lo ≤ radiusMiles) ∧
    (milesBetween oLat oLon la lo = radiusMiles →
      radiusPred oLat oLon radiusMiles b = true) := by
  have hred := radiusPred_num oLat oLon radiusMiles la lo b hla hlo
  constructor
  · rw [hred]
    constructor
    · intro hp
      by_contra hc
      rw [if_neg hc] at hp
      exact Bool.noConfusion hp
    · intro hd
      rw [if_pos hd]
  · intro hd
    rw [hred, if_pos (le_of_eq hd)]

/-- C6 witness: the brewery at (0,0) with origin (0,0) and radius 0 sits
exactly on the boundary (distance 0 = radius 0) and is accepted. -/
theorem radius_membership_boundary_inclusive_witness :
    radiusPred 0 0 0 breweryAtZero = true :=
  (radius_membership_boundary_inclusive 0 0 0 0 0 breweryAtZero rfl rfl).2
    (milesBetween_self 0 0)

/-- C8: milesBetween is symmetric: for points with latitude in [-90,90]
and longitude in [-180,180], swapping the two points leaves the distance
unchanged (here an exact equality of reals). -/
theorem milesBetween_symm (lat1 lon1 lat2 lon2 : ℝ)
    (_h1 : -90 ≤ lat1) (_h2 : lat1 ≤ 90) (_h3 : -90 ≤ lat2) (_h4 : lat2 ≤ 90)
    (_h5 : -180 ≤ lon1) (_h6 : lon1 ≤ 180) (_h7 : -180 ≤ lon2)
    (_h8 : lon2 ≤ 180) :
    milesBetween lat1 lon1 lat2 lon2 = milesBetween lat2 lon2 lat1 lon1 := by
  unfold milesBetween
  rw [milesBetween_symm_aux]

/-- C8 witness: symmetry at the concrete pair (0,0) and (10,20). -/
theorem milesBetween_symm_witness :
    milesBetween 0 0 10 20 = milesBetween 10 20 0 0 :=
  milesBetween_symm 0 0 10 20 (by norm_num) (by norm_num) (by norm_num)
    (by norm_num) (by norm_num) (by norm_num) (by norm_num) (by norm_num)

/-- C4: whenever the directory collaborator responds with a non-success
status (and the handler reaches the directory call, i.e. the geocode fetch
did not throw), the query fails with an error response carrying that same
status code; the error constructor carries no breweries sequence, and the
single-pass model makes exactly one directory request. -/
theorem directory_error_propagates_status (latP lonP radiusP : Option ℝ)
    (perPageP : Option ℕ) (city state : String) (geo : GeoResponse)
    (dir : DirResponse) (hgeo : geo ≠ GeoResponse.thrown)
    (hdir : dir.ok = false) :
    (GET latP lonP radiusP perPageP city state geo dir).result =
      .errorResp dir.status := by
  unfold GET
  by_cases hc : (latP = none ∨ lonP = none) ∧ 0 < radiusP.getD 30
  · rw [if_pos hc]
    cases geo with
    | thrown => exact absurd rfl hgeo
    | notOk =>
        exact afterOrigin_error _ _ _ _ _ _ _ hdir
    | ok results =>
        cases results with
        | nil => exact afterOrigin_error _ _ _ _ _ _ _ hdir
        | cons m rest => exact afterOrigin_error _ _ _ _ _ _ _ hdir
  · rw [if_neg hc]
    exact afterOrigin_error _ _ _ _ _ _ _ hdir

/-- C4 witness: a directory 503 with explicit coordinates yields an error
response with status 503. -/
theorem directory_error_propagates_status_witness :
    (GET (some 1) (some 2) (some 30) none "Denver" "Colorado"
      GeoResponse.notOk ⟨false, 503, []⟩).result = .errorResp 503 :=
  directory_error_propagates_status (some 1) (some 2) (some 30) none
    "Denver" "Colorado" GeoResponse.notOk ⟨false, 503, []⟩
    (fun h => GeoResponse.noConfusion h) rfl

/-- C5 counterexample: with no explicit coordinates and a geocoding fetch
that rejects (collaborator unreachable), the handler does not proceed: the
exception escapes (`GET` has no try/catch), no directory request is made,
and no breweries are returned, even though the directory would have
answered successfully. -/
theorem geocode_unreachable_throws :
    GET none none none none "Denver" "Colorado" GeoResponse.thrown
      ⟨true, 200, []⟩ = ⟨none, .thrown⟩ := by
  norm_num [GET, geocodeCityState]

/-- C5 amended: for every query without explicit coordinates where the
geocoding collaborator responds with a non-success status or returns zero
matches, the query does not fail: the orchestrator proceeds with no
origin, requests directory results filtered by city and state name, and
returns them unfiltered. (A geocode fetch that rejects outright instead
propagates as an exception.) -/
theorem geocode_miss_falls_back_to_city_state (latP lonP radiusP : Option ℝ)
    (perPageP : Option ℕ) (city state : String) (geo : GeoResponse)
    (dir : DirResponse) (hlat : latP = none) (hlon : lonP = none)
    (hgeo : geo = GeoResponse.notOk ∨ geo = GeoResponse.ok [])
    (hdir : dir.ok = true) :
    GET latP lonP radiusP perPageP city state geo dir =
      ⟨some (.byCity city state (min (perPageP.getD 200) 200)),
        .success none dir.data⟩ := by
  subst hlat; subst hlon
  by_cases hr : 0 < radiusP.getD (30 : ℝ)
  · rcases hgeo with hg | hg <;> subst hg <;>
      simp [GET, geocodeCityState, hr, afterOrigin, hdir]
  · simp [GET, hr, afterOrigin, hdir]

/-- C5 amended witness: city/state query, geocoder answers non-ok,
directory succeeds with an empty list: the outcome is a by-city/by-state
request and an unfiltered success with no origin. -/
theorem geocode_miss_falls_back_witness :
    GET none none none none "Denver" "Colorado" GeoResponse.notOk
      ⟨true, 200, []⟩ =
      ⟨some (.byCity "Denver" "Colorado" 200), .success none []⟩ :=
  geocode_miss_falls_back_to_city_state none none none none "Denver"
    "Colorado" GeoResponse.notOk ⟨true, 200, []⟩ rfl rfl (Or.inl rfl) rfl

/-- C7: for a query with explicit latitude and longitude and
radiusMiles = 0, no radius filtering is applied: the directory is asked
for a distance-sorted list from that origin, and the result carries the
directory sequence unchanged with no origin/radius fields populated. -/
theorem radius_zero_disables_filtering (la lo : ℝ) (perPageP : Option ℕ)
    (city state : String) (geo : GeoResponse) (dir : DirResponse)
    (hdir : dir.ok = true) :
    GET (some la) (some lo) (some 0) perPageP city state geo dir =
      ⟨some (.byDist la lo (min (perPageP.getD 200) 200)),
        .success none dir.data⟩ := by
  simp [GET, afterOrigin, hdir]

/-- C7 witness: explicit Denver coordinates with radius 0: the outcome is
a by-distance request and the unfiltered directory data with no origin. -/
theorem radius_zero_disables_filtering_witness :
    GET (some 39.7392) (some (-104.9903)) (some 0) none "Denver" "Colorado"
      GeoResponse.notOk ⟨true, 200, [breweryAtZero]⟩ =
      ⟨some (.byDist 39.7392 (-104.9903) 200),
        .success none [breweryAtZero]⟩ :=
  radius_zero_disables_filtering 39.7392 (-104.9903) none "Denver"
    "Colorado" GeoResponse.notOk ⟨true, 200, [breweryAtZero]⟩ rfl

/-- C9: when exactly one of the explicit coordinates is supplied and the
effective radius is positive, the supplied coordinate is never used
as-is: a successful geocode overwrites both origin coordinates (the
response origin and the by-distance request both carry the geocoded
point), and a failed geocode leaves the origin partially null so the
query falls back to a city/state-name directory request with no filtering
and no origin in the response. -/
theorem single_coordinate_never_used (latP lonP radiusP : Option ℝ)
    (perPageP : Option ℕ) (city state : String) (dir : DirResponse)
    (hx : latP.isSome ≠ lonP.isSome) (hr : 0 < radiusP.getD (30 : ℝ))
    (hdir : dir.ok = true) :
    (∀ gla glo rest,
      GET latP lonP radiusP perPageP city state
          (.ok ((gla, glo) :: rest)) dir =
        ⟨some (.byDist gla glo (min (perPageP.getD 200) 200)),
          .success (some (gla, glo, radiusP.getD 30))
            (radiusFilter gla glo (radiusP.getD 30) dir.data)⟩) ∧
    (∀ geo, geo = GeoResponse.notOk ∨ geo = GeoResponse.ok [] →
      GET latP lonP radiusP perPageP city state geo dir =
        ⟨some (.byCity city state (min (perPageP.getD 200) 200)),
          .success none dir.data⟩) := by
  have hcond : latP = none ∨ lonP = none := by
    cases hla : latP with
    | none => exact Or.inl rfl
    | some x =>
        cases hlo : lonP with
        | none => exact Or.inr rfl
        | some y => rw [hla, hlo] at hx; simp at hx
  constructor
  · intro gla glo rest
    simp only [GET]
    rw [if_pos (show (latP = none ∨ lonP = none) ∧
      0 < radiusP.getD 30 from ⟨hcond, hr⟩)]
    simp [geocodeCityState, afterOrigin, hdir, hr]
  · intro geo hgeo
    have hgc : geocodeCityState geo = .ok none := by
      rcases hgeo with hg | hg <;> subst hg <;> rfl
    have hao : afterOrigin latP lonP (radiusP.getD 30)
        (min (perPageP.getD 200) 200) city state dir =
        ⟨some (.byCity city state (min (perPageP.getD 200) 200)),
          .success none dir.data⟩ := by
      rcases hcond with hc | hc
      · rw [hc]
        simp [afterOrigin, hdir]
      · rw [hc]
        rcases latP with _ | x <;> simp [afterOrigin, hdir]
    simp only [GET]
    rw [if_pos (show (latP = none ∨ lonP = none) ∧
      0 < radiusP.getD 30 from ⟨hcond, hr⟩), hgc]
    exact hao

/-- C9 witness: latitude supplied without longitude, radius defaulted to
30, geocoder returns (10,20): the origin is (10,20) on both the request
and the response, and the supplied 39.7392 is nowhere used. -/
theorem single_coordinate_never_used_witness :
    GET (some 39.7392) none none none "Denver" "Colorado"
        (.ok [(10, 20)]) ⟨true, 200, []⟩ =
      ⟨some (.byDist 10 20 200),
        .success (some (10, 20, 30)) (radiusFilter 10 20 30 [])⟩ :=
  (single_coordinate_never_used (some 39.7392) none none none "Denver"
    "Colorado" ⟨true, 200, []⟩ (by simp) (by norm_num) rfl).1 10 20 []

/-- C10: the client-side normalization keeps exactly the records whose
latitude and longitude fields are both truthy, so every brewery whose
latitude or longitude equals the number 0 or the empty string fails the
filter and is excluded from the rendered list and map markers. -/
theorem breweriesWithCoords_truthy_filter (parse : String → ℝ)
    (bs : List Brewery) :
    (∀ c, c ∈ breweriesWithCoords parse bs ↔
      ∃ b, b ∈ bs ∧ jsTruthy b.latitude = true ∧
        jsTruthy b.longitude = true ∧ c = withNumberCoords parse b) ∧
    (∀ b : Brewery,
      b.latitude = JsVal.num 0 ∨ b.latitude = JsVal.str "" ∨
        b.longitude = JsVal.num 0 ∨ b.longitude = JsVal.str "" →
      hasCoords b = false) := by
  constructor
  · intro c
    simp only [breweriesWithCoords, List.mem_map, List.mem_filter,
      hasCoords, Bool.and_eq_true]
    constructor
    · rintro ⟨b, ⟨hb, hlat, hlon⟩, hc⟩
      exact ⟨b, hb, hlat, hlon, hc.symm⟩
    · rintro ⟨b, hb, hlat, hlon, hc⟩
      exact ⟨b, ⟨hb, hlat, hlon⟩, hc.symm⟩
  · intro b hb
    rcases hb with h | h | h | h <;>
      simp [hasCoords, jsTruthy, h]

/-- C10 witness: a brewery at latitude 0 (a valid coordinate) fails the
truthiness filter. -/
theorem breweriesWithCoords_truthy_filter_witness :
    hasCoords breweryZeroLat = false :=
  (breweriesWithCoords_truthy_filter (fun _ => 0) []).2 breweryZeroLat
    (Or.inl rfl)

end BreweryMap
